import Mathlib

/-!
Shallow embedding of the BoulderBody web application's session model,
persistence gateway, recommendation engines and session lifecycle
(source: boulderbody-web/src — Session.ts, SessionType.ts, BoulderAttempt.ts,
StorageManager.ts, SessionRecommender.ts, TrainingRecommender.ts,
StartView.tsx, SessionView.tsx, TrainingSessionView.tsx), together with
theorems checking the specification's claims against it.

Instants (JavaScript `Date` values) are modelled as integers counting
milliseconds since the Unix epoch.  JavaScript numbers used as weights are
modelled as rationals (the only arithmetic performed on them is adding 2.5).
-/

namespace BoulderBody

/-- Milliseconds since the Unix epoch (a JavaScript `Date`). -/
abbrev Instant := Int

/-! ## Domain model (BoulderAttempt.ts, SessionType.ts, Session.ts) -/

/-- Result of a boulder attempt (`AttemptResult` in BoulderAttempt.ts);
an unlogged attempt has no result (`undefined`). -/
inductive AttemptResult where
  | flash
  | done
  | fail
deriving DecidableEq, Repr

/-- A single boulder attempt within a volume session (BoulderAttempt.ts). -/
structure BoulderAttempt where
  id : String
  order : Nat
  result : Option AttemptResult := none
  comment : Option String := none
  timestamp : Option Instant := none
deriving DecidableEq, Repr

/-- Discriminator for the session tagged union (`SessionType` in SessionType.ts). -/
inductive SessionType where
  | volume
  | training
deriving DecidableEq, Repr

/-- The four training exercises (`exercise` field of `TrainingSet`). -/
inductive Exercise where
  | hang
  | pullup
  | bench
  | trapbar
deriving DecidableEq, Repr

/-- A single set within a training session (`TrainingSet` in SessionType.ts). -/
structure TrainingSet where
  id : String
  order : Nat
  exercise : Exercise
  completed : Bool
  timestamp : Option Instant := none
  notes : Option String := none
deriving DecidableEq, Repr

/-- Training session data (`TrainingData` in SessionType.ts).  The bench and
trap-bar weights and set sequences are optional: they are absent in sessions
created before those exercises existed. -/
structure TrainingData where
  hangWeight : ℚ
  pullupWeight : ℚ
  benchWeight : Option ℚ := none
  trapBarWeight : Option ℚ := none
  hangSets : List TrainingSet
  pullupSets : List TrainingSet
  benchSets : Option (List TrainingSet) := none
  trapBarSets : Option (List TrainingSet) := none
deriving DecidableEq, Repr

/-- A volume session (`VolumeSession` in Session.ts), with the `BaseSession`
fields inlined. -/
structure VolumeSession where
  id : String
  date : Instant
  startTime : Instant
  endTime : Option Instant := none
  isFinished : Bool
  targetLevel : Int
  boulderCount : Nat
  attempts : List BoulderAttempt
deriving DecidableEq, Repr

/-- A training session (`TrainingSession` in Session.ts), with the
`BaseSession` fields inlined. -/
structure TrainingSession where
  id : String
  date : Instant
  startTime : Instant
  endTime : Option Instant := none
  isFinished : Bool
  trainingData : TrainingData
deriving DecidableEq, Repr

/-- The tagged union `Session = VolumeSession | TrainingSession`
(Session.ts); the constructor plays the role of the `sessionType`
discriminator. -/
inductive Session where
  | volume (s : VolumeSession)
  | training (s : TrainingSession)
deriving DecidableEq, Repr

/-- The `id` field of either session variant. -/
def Session.sid : Session → String
  | .volume s => s.id
  | .training s => s.id

/-- The `isFinished` field of either session variant. -/
def Session.finished : Session → Bool
  | .volume s => s.isFinished
  | .training s => s.isFinished

/-- The `endTime` field of either session variant. -/
def Session.endT : Session → Option Instant
  | .volume s => s.endTime
  | .training s => s.endTime

/-! ## Read accessors (Session.ts, SessionType.ts) -/

/-- Model of `getFailRate` (Session.ts): unlogged attempts count as fails; a session
with `boulderCount == 0` has fail rate 0. -/
def getFailRate (session : VolumeSession) : ℚ :=
  if session.boulderCount = 0 then 0
  else
    let failCount :=
      (session.attempts.filter
        (fun a => a.result == some .fail || a.result == none)).length
    ((failCount : ℚ) / (session.boulderCount : ℚ)) * 100

/-- Counts of attempts by result type (`getAttemptCounts` in Session.ts). -/
structure AttemptCounts where
  flash : Nat
  done : Nat
  fail : Nat
  unlogged : Nat
deriving DecidableEq, Repr

/-- Model of `getAttemptCounts` (Session.ts). -/
def getAttemptCounts (session : VolumeSession) : AttemptCounts where
  flash := (session.attempts.filter (fun a => a.result == some .flash)).length
  done := (session.attempts.filter (fun a => a.result == some .done)).length
  fail := (session.attempts.filter (fun a => a.result == some .fail)).length
  unlogged := (session.attempts.filter (fun a => a.result == none)).length

/-- Model of `isExerciseComplete` (SessionType.ts): true iff the set sequence is
present, non-empty, and every set is completed. -/
def isExerciseComplete (sets : Option (List TrainingSet)) : Bool :=
  match sets with
  | none => false
  | some l => 0 < l.length && l.all (·.completed)

/-! ## Volume recommender (SessionRecommender.ts) -/

/-- A recommendation for the next volume session
(`SessionRecommendation` in SessionRecommender.ts). -/
structure SessionRecommendation where
  level : Int
  boulderCount : Nat
  reason : String
deriving DecidableEq, Repr

/-- Model of `DEFAULT_RECOMMENDATION` (SessionRecommender.ts). -/
def DEFAULT_RECOMMENDATION : SessionRecommendation where
  level := 5
  boulderCount := 20
  reason := "Starting with default recommendation"

/-- One day in milliseconds (`1000 * 60 * 60 * 24`). -/
def msPerDay : Int := 1000 * 60 * 60 * 24

/-- Model of `getRecommendation` (SessionRecommender.ts).  `now` stands for the
`Date.now()` call in the source; `Math.floor` of the millisecond division is
floor division `Int.fdiv`. -/
def getRecommendation (lastSession : Option VolumeSession) (now : Instant) :
    SessionRecommendation :=
  match lastSession with
  | none => DEFAULT_RECOMMENDATION
  | some last =>
    let failRate := getFailRate last
    let level1 : Int :=
      if failRate < 25 then last.targetLevel + 1
      else if failRate > 75 then last.targetLevel - 1
      else last.targetLevel
    let daysSinceLastSession : Int := (now - last.date).fdiv msPerDay
    let level2 : Int :=
      if daysSinceLastSession > 14 then level1 - 2
      else if daysSinceLastSession >= 8 then level1 - 1
      else level1
    let level3 : Int := if level2 < 1 then 1 else level2
    let reasons : List String :=
      (if failRate < 25 then ["Strong performance (+1 level)"]
       else if failRate > 75 then ["High fail rate (-1 level)"]
       else ["Consistent performance (same level)"])
      ++ (if daysSinceLastSession > 14 then
            [toString daysSinceLastSession ++ " days since last session (-2 levels)"]
          else if daysSinceLastSession >= 8 then
            [toString daysSinceLastSession ++ " days since last session (-1 level)"]
          else [])
      ++ (if level2 < 1 then ["(clamped to minimum level 1)"] else [])
    { level := level3
      boulderCount := last.boulderCount
      reason := String.intercalate ", " reasons }

/-! ## Training recommender (TrainingRecommender.ts) -/

/-- Recommended weights for the next training session
(`TrainingRecommendation` in TrainingRecommender.ts). -/
structure TrainingRecommendation where
  hangWeight : ℚ
  pullupWeight : ℚ
  benchWeight : ℚ
  trapBarWeight : ℚ
  reason : String
deriving DecidableEq, Repr

/-- Model of `DEFAULT_WEIGHT` (TrainingRecommender.ts): bodyweight. -/
def DEFAULT_WEIGHT : ℚ := 0

/-- Model of `DEFAULT_BENCH_WEIGHT` (TrainingRecommender.ts), in kg. -/
def DEFAULT_BENCH_WEIGHT : ℚ := 10

/-- Model of `DEFAULT_TRAPBAR_WEIGHT` (TrainingRecommender.ts), in kg. -/
def DEFAULT_TRAPBAR_WEIGHT : ℚ := 20

/-- Model of `WEIGHT_INCREMENT` (TrainingRecommender.ts), in kg. -/
def WEIGHT_INCREMENT : ℚ := 5 / 2

/-- Model of `getTrainingRecommendation` (TrainingRecommender.ts). -/
def getTrainingRecommendation (lastTrainingSession : Option TrainingSession) :
    TrainingRecommendation :=
  match lastTrainingSession with
  | none =>
    { hangWeight := DEFAULT_WEIGHT
      pullupWeight := DEFAULT_WEIGHT
      benchWeight := DEFAULT_BENCH_WEIGHT
      trapBarWeight := DEFAULT_TRAPBAR_WEIGHT
      reason := "First session — starting with defaults" }
  | some last =>
    let trainingData := last.trainingData
    let hangComplete := isExerciseComplete (some trainingData.hangSets)
    let pullupComplete := isExerciseComplete (some trainingData.pullupSets)
    let benchComplete := isExerciseComplete trainingData.benchSets
    let trapBarComplete := isExerciseComplete trainingData.trapBarSets
    let newHangWeight :=
      if hangComplete then trainingData.hangWeight + WEIGHT_INCREMENT
      else trainingData.hangWeight
    let newPullupWeight :=
      if pullupComplete then trainingData.pullupWeight + WEIGHT_INCREMENT
      else trainingData.pullupWeight
    let newBenchWeight :=
      if benchComplete then
        trainingData.benchWeight.getD DEFAULT_BENCH_WEIGHT + WEIGHT_INCREMENT
      else trainingData.benchWeight.getD DEFAULT_BENCH_WEIGHT
    let newTrapBarWeight :=
      if trapBarComplete then
        trainingData.trapBarWeight.getD DEFAULT_TRAPBAR_WEIGHT + WEIGHT_INCREMENT
      else trainingData.trapBarWeight.getD DEFAULT_TRAPBAR_WEIGHT
    let completed := [hangComplete, pullupComplete, benchComplete, trapBarComplete]
    let completedCount := (completed.filter id).length
    let reason :=
      if completedCount = 4 then "All exercises complete (+2.5kg each)"
      else if completedCount = 0 then "No exercises completed — maintain weights"
      else
        let names := ["hangs", "pull-ups", "bench", "trap bar"]
        let progressed := String.intercalate ", "
          ((names.zip completed).filterMap
            (fun p => if p.2 then some p.1 else none))
        progressed ++ " +2.5kg, others same"
    { hangWeight := newHangWeight
      pullupWeight := newPullupWeight
      benchWeight := newBenchWeight
      trapBarWeight := newTrapBarWeight
      reason := reason }

/-! ## Persistence gateway, pure core (StorageManager.ts)

The gateway reads the whole stored collection, transforms it, and writes it
back.  The pure core of each operation is its transformation of the session
list; `throw` becomes an `Except` error. -/

/-- Error taxonomy of the gateway's thrown errors. -/
inductive StorageError where
  | notFound
  | quotaExceeded
  | storageUnavailable
deriving DecidableEq, Repr

/-- Model of `CURRENT_VERSION` (StorageManager.ts): incremented to 2 for the
`sessionType` discriminator. -/
def CURRENT_VERSION : Int := 2

/-- Pure core of `saveSession` (StorageManager.ts): push the new session onto
the stored collection. -/
def saveSession (session : Session) (sessions : List Session) : List Session :=
  sessions ++ [session]

/-- Pure core of `updateSession` (StorageManager.ts): replace the session with
matching id, or fail with `notFound`. -/
def updateSession (updatedSession : Session) (sessions : List Session) :
    Except StorageError (List Session) :=
  match sessions.findIdx? (fun s => s.sid == updatedSession.sid) with
  | none => .error .notFound
  | some index => .ok (sessions.set index updatedSession)

/-- Pure core of `deleteSession` (StorageManager.ts): filter out the matching
id; if nothing was removed, fail with `notFound`. -/
def deleteSession (id : String) (sessions : List Session) :
    Except StorageError (List Session) :=
  let filtered := sessions.filter (fun s => s.sid != id)
  if filtered.length = sessions.length then .error .notFound
  else .ok filtered

/-! ## Schema versioning and migration (StorageManager.ts)

`migrateV1toV2` operates on the raw parsed payload, before deserialization:
a raw session is its (possibly absent) `sessionType` discriminator together
with all remaining fields, which the migration spreads through untouched.
The remaining fields are an arbitrary type parameter since the migration
never inspects them. -/

/-- A raw stored session: the optional `sessionType` discriminator plus the
rest of the record, untouched by migration. -/
structure RawSession (α : Type) where
  sessionType : Option SessionType
  rest : α
deriving DecidableEq, Repr

/-- Raw stored payload (`StorageSchema` before parsing-time validation):
`version` may be absent in pre-versioning payloads. -/
structure RawSchema (α : Type) where
  version : Option Int
  sessions : List (RawSession α)
deriving DecidableEq, Repr

/-- Model of `migrateV1toV2` (StorageManager.ts): stamp version 2 and default each
session's missing `sessionType` to `volume`
(`sessionType: s.sessionType || 'volume'`). -/
def migrateV1toV2 {α : Type} (data : RawSchema α) : RawSchema α where
  version := some 2
  sessions := data.sessions.map
    (fun s => { s with sessionType := some (s.sessionType.getD .volume) })

/-- The migration guard in `getAllSessions` (StorageManager.ts):
`!data.version || data.version < CURRENT_VERSION`.  A JavaScript `!` on the
version number is true when the field is absent or zero. -/
def needsMigration (version : Option Int) : Bool :=
  match version with
  | none => true
  | some v => v == 0 || v < CURRENT_VERSION

/-- The migration step of `getAllSessions` (StorageManager.ts): apply
`migrateV1toV2` exactly when the stored version predates the current one,
decided from the `version` field alone. -/
def applyMigrations {α : Type} (data : RawSchema α) : RawSchema α :=
  if needsMigration data.version then migrateV1toV2 data else data

/-! ## JavaScript Date wire format

`JSON.stringify` serializes a `Date` as its ISO-8601 UTC string
(`Date.prototype.toISOString`), and `deserializeSession` turns such strings
back into `Date`s with `new Date(string)`.  The two functions below model
that pair of ECMAScript built-ins on the proleptic Gregorian calendar, for
instants whose UTC year lies in 0..9999 (outside that range JavaScript uses
an expanded year format, not modelled here). -/

/-- Decimal rendering of `n` left-padded with zeros to `width` digits. -/
def padZeros (width : Nat) (n : Nat) : String :=
  let s := toString n
  if s.length < width then String.mk (List.replicate (width - s.length) '0') ++ s
  else s

/-- Civil date (year, month, day) of a day count relative to 1970-01-01,
on the proleptic Gregorian calendar. -/
def civilFromDays (z : Int) : Int × Int × Int :=
  let z := z + 719468
  let era := z.fdiv 146097
  let doe := z - era * 146097
  let yoe := (doe - doe / 1460 + doe / 36524 - doe / 146096) / 365
  let y := yoe + era * 400
  let doy := doe - (365 * yoe + yoe / 4 - yoe / 100)
  let mp := (5 * doy + 2) / 153
  let d := doy - (153 * mp + 2) / 5 + 1
  let m := if mp < 10 then mp + 3 else mp - 9
  (if m <= 2 then y + 1 else y, m, d)

/-- Day count relative to 1970-01-01 of a civil date, on the proleptic
Gregorian calendar; inverse of `civilFromDays`. -/
def daysFromCivil (y m d : Int) : Int :=
  let y := if m <= 2 then y - 1 else y
  let era := y.fdiv 400
  let yoe := y - era * 400
  let mp := if 2 < m then m - 3 else m + 9
  let doy := (153 * mp + 2) / 5 + d - 1
  let doe := yoe * 365 + yoe / 4 - yoe / 100 + doy
  era * 146097 + doe - 719468

/-- Model of `Date.prototype.toISOString`: the `YYYY-MM-DDTHH:MM:SS.sssZ` rendering
of an instant. -/
def isoOfInstant (t : Instant) : String :=
  let days := t.fdiv 86400000
  let msOfDay := (t.emod 86400000).toNat
  let ymd := civilFromDays days
  padZeros 4 ymd.1.toNat ++ "-" ++ padZeros 2 ymd.2.1.toNat ++ "-"
    ++ padZeros 2 ymd.2.2.toNat
    ++ "T" ++ padZeros 2 (msOfDay / 3600000)
    ++ ":" ++ padZeros 2 (msOfDay % 3600000 / 60000)
    ++ ":" ++ padZeros 2 (msOfDay % 60000 / 1000)
    ++ "." ++ padZeros 3 (msOfDay % 1000) ++ "Z"

/-- Value of a decimal digit character, or `none` for a non-digit. -/
def digitVal (c : Char) : Option Nat :=
  if 48 ≤ c.toNat && c.toNat ≤ 57 then some (c.toNat - 48) else none

/-- The number denoted by a list of decimal digit characters, or `none` if
one is not a digit. -/
def natOfDigits (cs : List Char) : Option Nat :=
  cs.foldl
    (fun acc c =>
      match acc, digitVal c with
      | some a, some d => some (a * 10 + d)
      | _, _ => none)
    (some 0)

/-- Model of `new Date(string)` on a `YYYY-MM-DDTHH:MM:SS.sssZ` string: the parsed
instant, or `none` for a malformed string (JavaScript's invalid date). -/
def parseIsoMs (s : String) : Option Instant :=
  match s.data with
  | [y1, y2, y3, y4, '-', o1, o2, '-', d1, d2, 'T', h1, h2, ':', i1, i2, ':',
      c1, c2, '.', x1, x2, x3, 'Z'] =>
    match natOfDigits [y1, y2, y3, y4], natOfDigits [o1, o2],
        natOfDigits [d1, d2], natOfDigits [h1, h2], natOfDigits [i1, i2],
        natOfDigits [c1, c2], natOfDigits [x1, x2, x3] with
    | some y, some mo, some d, some hh, some mi, some ss, some ms =>
      some (daysFromCivil y mo d * 86400000
        + ((hh : Int) * 3600000 + (mi : Int) * 60000 + (ss : Int) * 1000 + ms))
    | _, _, _, _, _, _, _ => none
  | _ => none

/-! ## Runtime session values (the wire form and the deserializer's output)

After `JSON.parse`, every field that held a `Date` holds an ISO string; the
deserializer is supposed to turn each back into a `Date`.  Because the code's
`deserializeSession` leaves some of those strings in place, its output is
modelled with a dynamic time type that can hold either a `Date` or a string,
exactly as JavaScript values can. -/

/-- A JavaScript runtime value standing in a time-valued field: either an
actual `Date` (an instant) or a string left over from `JSON.parse`. -/
inductive JsTime where
  | date (t : Instant)
  | str (s : String)
deriving DecidableEq, Repr

/-- Model of `new Date(x)` applied to a runtime time value: a `Date` is copied, a
string is parsed (a malformed string, JavaScript's invalid date, is modelled
as instant 0, which no theorem below exercises). -/
def jsNewDate (x : JsTime) : JsTime :=
  match x with
  | .date t => .date t
  | .str s => .date ((parseIsoMs s).getD 0)

/-- Runtime form of a `BoulderAttempt`. -/
structure RtAttempt where
  id : String
  order : Nat
  result : Option AttemptResult := none
  comment : Option String := none
  timestamp : Option JsTime := none
deriving DecidableEq, Repr

/-- Runtime form of a `TrainingSet`. -/
structure RtTrainingSet where
  id : String
  order : Nat
  exercise : Exercise
  completed : Bool
  timestamp : Option JsTime := none
  notes : Option String := none
deriving DecidableEq, Repr

/-- Runtime form of `TrainingData`. -/
structure RtTrainingData where
  hangWeight : ℚ
  pullupWeight : ℚ
  benchWeight : Option ℚ := none
  trapBarWeight : Option ℚ := none
  hangSets : List RtTrainingSet
  pullupSets : List RtTrainingSet
  benchSets : Option (List RtTrainingSet) := none
  trapBarSets : Option (List RtTrainingSet) := none
deriving DecidableEq, Repr

/-- Runtime form of a `VolumeSession`. -/
structure RtVolumeSession where
  id : String
  date : JsTime
  startTime : JsTime
  endTime : Option JsTime := none
  isFinished : Bool
  targetLevel : Int
  boulderCount : Nat
  attempts : List RtAttempt
deriving DecidableEq, Repr

/-- Runtime form of a `TrainingSession`. -/
structure RtTrainingSession where
  id : String
  date : JsTime
  startTime : JsTime
  endTime : Option JsTime := none
  isFinished : Bool
  trainingData : RtTrainingData
deriving DecidableEq, Repr

/-- Runtime form of a `Session`; the constructor is the `sessionType`
discriminator carried on the wire. -/
inductive RtSession where
  | volume (s : RtVolumeSession)
  | training (s : RtTrainingSession)
deriving DecidableEq, Repr

/-- A well-typed `Session` viewed as a runtime value: every time field is an
actual `Date`. -/
def sessionToRt (s : Session) : RtSession :=
  match s with
  | .volume v =>
    .volume
      { id := v.id
        date := .date v.date
        startTime := .date v.startTime
        endTime := v.endTime.map .date
        isFinished := v.isFinished
        targetLevel := v.targetLevel
        boulderCount := v.boulderCount
        attempts := v.attempts.map (fun a =>
          { id := a.id
            order := a.order
            result := a.result
            comment := a.comment
            timestamp := a.timestamp.map .date }) }
  | .training t =>
    .training
      { id := t.id
        date := .date t.date
        startTime := .date t.startTime
        endTime := t.endTime.map .date
        isFinished := t.isFinished
        trainingData :=
          { hangWeight := t.trainingData.hangWeight
            pullupWeight := t.trainingData.pullupWeight
            benchWeight := t.trainingData.benchWeight
            trapBarWeight := t.trainingData.trapBarWeight
            hangSets := t.trainingData.hangSets.map (fun ts =>
              { id := ts.id, order := ts.order, exercise := ts.exercise
                completed := ts.completed
                timestamp := ts.timestamp.map .date, notes := ts.notes })
            pullupSets := t.trainingData.pullupSets.map (fun ts =>
              { id := ts.id, order := ts.order, exercise := ts.exercise
                completed := ts.completed
                timestamp := ts.timestamp.map .date, notes := ts.notes })
            benchSets := t.trainingData.benchSets.map (fun l => l.map (fun ts =>
              { id := ts.id, order := ts.order, exercise := ts.exercise
                completed := ts.completed
                timestamp := ts.timestamp.map .date, notes := ts.notes }))
            trapBarSets := t.trainingData.trapBarSets.map (fun l => l.map (fun ts =>
              { id := ts.id, order := ts.order, exercise := ts.exercise
                completed := ts.completed
                timestamp := ts.timestamp.map .date, notes := ts.notes })) } }

/-- One `Date`-valued runtime time field as it crosses
`JSON.stringify`/`JSON.parse` (`saveAllSessions` followed by the read in
`getAllSessions`): the `Date` becomes its ISO string. -/
def wireTime (x : JsTime) : JsTime :=
  match x with
  | .date t => .str (isoOfInstant t)
  | .str s => .str s

/-- A runtime session as it crosses `JSON.stringify`/`JSON.parse`: every
time field becomes its ISO string; everything else survives unchanged. -/
def wireSession (s : RtSession) : RtSession :=
  let wireSet : RtTrainingSet → RtTrainingSet := fun ts =>
    { ts with timestamp := ts.timestamp.map wireTime }
  match s with
  | .volume v =>
    .volume
      { v with
        date := wireTime v.date
        startTime := wireTime v.startTime
        endTime := v.endTime.map wireTime
        attempts := v.attempts.map (fun a =>
          { a with timestamp := a.timestamp.map wireTime }) }
  | .training t =>
    .training
      { t with
        date := wireTime t.date
        startTime := wireTime t.startTime
        endTime := t.endTime.map wireTime
        trainingData :=
          { t.trainingData with
            hangSets := t.trainingData.hangSets.map wireSet
            pullupSets := t.trainingData.pullupSets.map wireSet
            benchSets := t.trainingData.benchSets.map (·.map wireSet)
            trapBarSets := t.trainingData.trapBarSets.map (·.map wireSet) } }

/-- Model of `deserializeSession` (StorageManager.ts), on the parsed runtime value.
For a training session it rebuilds `date`, `startTime`, `endTime` and the
timestamps of `hangSets` and `pullupSets` with `new Date(...)`; the object
spread copies `benchSets` and `trapBarSets` through untouched.  For a volume
session it rebuilds `date`, `startTime`, `endTime` and every attempt
timestamp. -/
def deserializeSession (data : RtSession) : RtSession :=
  match data with
  | .training t =>
    .training
      { t with
        date := jsNewDate t.date
        startTime := jsNewDate t.startTime
        endTime := t.endTime.map jsNewDate
        trainingData :=
          { t.trainingData with
            hangSets := t.trainingData.hangSets.map (fun s =>
              { s with timestamp := s.timestamp.map jsNewDate })
            pullupSets := t.trainingData.pullupSets.map (fun s =>
              { s with timestamp := s.timestamp.map jsNewDate }) } }
  | .volume v =>
    .volume
      { v with
        date := jsNewDate v.date
        startTime := jsNewDate v.startTime
        endTime := v.endTime.map jsNewDate
        attempts := v.attempts.map (fun a =>
          { a with timestamp := a.timestamp.map jsNewDate }) }

/-- Serialize-then-parse-then-deserialize: what a `Session` becomes after a
`saveAllSessions` write and a `getAllSessions` read. -/
def roundTrip (s : Session) : RtSession :=
  deserializeSession (wireSession (sessionToRt s))

/-! ## Session lifecycle (StartView.tsx, SessionView.tsx, TrainingSessionView.tsx)

The view handlers mutate a session and re-persist it; their pure cores are
functions from session to session.  Fresh ids (`crypto.randomUUID()`) and the
clock (`new Date()`) are injected as parameters. -/

/-- Model of `TRAINING_PROTOCOL` (SessionType.ts). -/
structure TrainingProtocol where
  hangSets : Nat
  hangDuration : Nat
  hangReps : Nat
  pullupSets : Nat
  pullupReps : Nat
  benchSets : Nat
  benchReps : Nat
  trapBarSets : Nat
  trapBarReps : Nat
  restBetweenSets : Nat

/-- The `TRAINING_PROTOCOL` constant (SessionType.ts). -/
def TRAINING_PROTOCOL : TrainingProtocol where
  hangSets := 5
  hangDuration := 7
  hangReps := 3
  pullupSets := 5
  pullupReps := 3
  benchSets := 5
  benchReps := 3
  trapBarSets := 5
  trapBarReps := 3
  restBetweenSets := 180

/-- The volume branch of `handleStartSession` (StartView.tsx): a fresh active
volume session with `boulderCount` blank attempts ordered `1..boulderCount`.
`idGen i` stands for the `crypto.randomUUID()` call of the i-th attempt. -/
def mkVolumeSession (sessionId : String) (idGen : Nat → String) (now : Instant)
    (level : Int) (boulderCount : Nat) : VolumeSession where
  id := sessionId
  date := now
  startTime := now
  isFinished := false
  targetLevel := level
  boulderCount := boulderCount
  attempts := (List.range boulderCount).map
    (fun i => { id := idGen i, order := i + 1 })

/-- The training branch of `handleStartSession` (StartView.tsx): a fresh
active training session with `TRAINING_PROTOCOL` many blank sets per
exercise, ordered from 1. -/
def mkTrainingSession (sessionId : String) (idGen : Exercise → Nat → String)
    (now : Instant) (hangWeight pullupWeight benchWeight trapBarWeight : ℚ) :
    TrainingSession where
  id := sessionId
  date := now
  startTime := now
  isFinished := false
  trainingData :=
    { hangWeight := hangWeight
      pullupWeight := pullupWeight
      benchWeight := some benchWeight
      trapBarWeight := some trapBarWeight
      hangSets := (List.range TRAINING_PROTOCOL.hangSets).map
        (fun i => { id := idGen .hang i, order := i + 1, exercise := .hang
                    completed := false })
      pullupSets := (List.range TRAINING_PROTOCOL.pullupSets).map
        (fun i => { id := idGen .pullup i, order := i + 1, exercise := .pullup
                    completed := false })
      benchSets := some ((List.range TRAINING_PROTOCOL.benchSets).map
        (fun i => { id := idGen .bench i, order := i + 1, exercise := .bench
                    completed := false }))
      trapBarSets := some ((List.range TRAINING_PROTOCOL.trapBarSets).map
        (fun i => { id := idGen .trapbar i, order := i + 1, exercise := .trapbar
                    completed := false })) }

/-- Model of `handleLogAttempt` (SessionView.tsx): set `result`, `comment` and
`timestamp = now` on the attempt with the selected id, overwriting any prior
log. -/
def logAttempt (session : VolumeSession) (attemptId : String)
    (result : AttemptResult) (comment : Option String) (now : Instant) :
    VolumeSession :=
  { session with
    attempts := session.attempts.map (fun a =>
      if a.id == attemptId then
        { a with result := some result, comment := comment
                 timestamp := some now }
      else a) }

/-- Model of `finishSession` (SessionView.tsx): mark finished and stamp the end time. -/
def finishVolume (session : VolumeSession) (now : Instant) : VolumeSession :=
  { session with isFinished := true, endTime := some now }

/-- Model of `completeSession` (TrainingSessionView.tsx): mark finished and stamp the
end time. -/
def finishTraining (session : TrainingSession) (now : Instant) :
    TrainingSession :=
  { session with isFinished := true, endTime := some now }

/-- The un-complete branch of `handleSetToggle` for a completed hang set
(TrainingSessionView.tsx): clear `completed` and `timestamp`. -/
def uncompleteHangSet (session : TrainingSession) (setId : String) :
    TrainingSession :=
  { session with
    trainingData :=
      { session.trainingData with
        hangSets := session.trainingData.hangSets.map (fun s =>
          if s.id == setId then { s with completed := false, timestamp := none }
          else s) } }

/-- Model of `handleHangComplete` (TrainingSessionView.tsx): mark the pending hang set
complete with `timestamp = now` (the hang timer elapsed or was skipped). -/
def completeHangSet (session : TrainingSession) (setId : String)
    (now : Instant) : TrainingSession :=
  { session with
    trainingData :=
      { session.trainingData with
        hangSets := session.trainingData.hangSets.map (fun s =>
          if s.id == setId then { s with completed := true, timestamp := some now }
          else s) } }

/-- The pullup branch of `handleSetToggle` (TrainingSessionView.tsx): flip
`completed`; a set turning complete gets `timestamp = now`, a set turning
incomplete loses it. -/
def togglePullupSet (session : TrainingSession) (setId : String)
    (now : Instant) : TrainingSession :=
  { session with
    trainingData :=
      { session.trainingData with
        pullupSets := session.trainingData.pullupSets.map (fun s =>
          if s.id == setId then
            { s with completed := !s.completed
                     timestamp := if !s.completed then some now else none }
          else s) } }

/-- The bench branch of `handleSetToggle` (TrainingSessionView.tsx); note the
`?? []` on the optional sequence, which the update makes present. -/
def toggleBenchSet (session : TrainingSession) (setId : String)
    (now : Instant) : TrainingSession :=
  { session with
    trainingData :=
      { session.trainingData with
        benchSets := some ((session.trainingData.benchSets.getD []).map (fun s =>
          if s.id == setId then
            { s with completed := !s.completed
                     timestamp := if !s.completed then some now else none }
          else s)) } }

/-- The trap-bar branch of `handleSetToggle` (TrainingSessionView.tsx). -/
def toggleTrapBarSet (session : TrainingSession) (setId : String)
    (now : Instant) : TrainingSession :=
  { session with
    trainingData :=
      { session.trainingData with
        trapBarSets := some ((session.trainingData.trapBarSets.getD []).map (fun s =>
          if s.id == setId then
            { s with completed := !s.completed
                     timestamp := if !s.completed then some now else none }
          else s)) } }

/-- Model of `totalCompleted` (TrainingSessionView.tsx): completed sets across all
four exercises, absent sequences counting as empty. -/
def totalCompleted (session : TrainingSession) : Nat :=
  (session.trainingData.hangSets.filter (·.completed)).length
  + (session.trainingData.pullupSets.filter (·.completed)).length
  + ((session.trainingData.benchSets.getD []).filter (·.completed)).length
  + ((session.trainingData.trapBarSets.getD []).filter (·.completed)).length

/-- Model of `totalSets` (TrainingSessionView.tsx): total sets across all four
exercises, absent sequences counting as empty. -/
def totalSets (session : TrainingSession) : Nat :=
  session.trainingData.hangSets.length
  + session.trainingData.pullupSets.length
  + (session.trainingData.benchSets.getD []).length
  + (session.trainingData.trapBarSets.getD []).length

/-- Outcome of a finish request: either the completion gate fired and the
finish is deferred to caller confirmation, or the session was finished. -/
inductive FinishOutcome (σ : Type) where
  | confirm
  | finished (s : σ)
deriving DecidableEq, Repr

/-- Model of `handleFinishSession` (SessionView.tsx): show the confirmation dialog
when more than 5 attempts are unlogged, otherwise finish at once. -/
def handleFinishVolume (session : VolumeSession) (now : Instant) :
    FinishOutcome VolumeSession :=
  let counts := getAttemptCounts session
  if counts.unlogged > 5 then .confirm
  else .finished (finishVolume session now)

/-- Model of `handleFinishSession` (TrainingSessionView.tsx): show the confirmation
dialog when not every set is completed, otherwise finish at once. -/
def handleFinishTraining (session : TrainingSession) (now : Instant) :
    FinishOutcome TrainingSession :=
  if totalCompleted session < totalSets session then .confirm
  else .finished (finishTraining session now)

/-- Sessions reachable through the lifecycle operations: creation, attempt
logging, set toggling and completion, and finishing. -/
inductive Reachable : Session → Prop where
  | startVolume (sessionId : String) (idGen : Nat → String) (now : Instant)
      (level : Int) (boulderCount : Nat) :
      Reachable (.volume (mkVolumeSession sessionId idGen now level boulderCount))
  | startTraining (sessionId : String) (idGen : Exercise → Nat → String)
      (now : Instant) (hw pw bw tw : ℚ) :
      Reachable (.training (mkTrainingSession sessionId idGen now hw pw bw tw))
  | logAttempt (s : VolumeSession) (attemptId : String) (result : AttemptResult)
      (comment : Option String) (now : Instant) :
      Reachable (.volume s) →
      Reachable (.volume (logAttempt s attemptId result comment now))
  | uncompleteHang (s : TrainingSession) (setId : String) :
      Reachable (.training s) →
      Reachable (.training (uncompleteHangSet s setId))
  | completeHang (s : TrainingSession) (setId : String) (now : Instant) :
      Reachable (.training s) →
      Reachable (.training (completeHangSet s setId now))
  | togglePullup (s : TrainingSession) (setId : String) (now : Instant) :
      Reachable (.training s) →
      Reachable (.training (togglePullupSet s setId now))
  | toggleBench (s : TrainingSession) (setId : String) (now : Instant) :
      Reachable (.training s) →
      Reachable (.training (toggleBenchSet s setId now))
  | toggleTrapBar (s : TrainingSession) (setId : String) (now : Instant) :
      Reachable (.training s) →
      Reachable (.training (toggleTrapBarSet s setId now))
  | finishVol (s : VolumeSession) (now : Instant) :
      Reachable (.volume s) →
      Reachable (.volume (finishVolume s now))
  | finishTrain (s : TrainingSession) (now : Instant) :
      Reachable (.training s) →
      Reachable (.training (finishTraining s now))

/-! ## Concrete example sessions used as test inputs -/

/-- A blank attempt carrying a given result, for building example sessions. -/
def exAttempt (r : Option AttemptResult) : BoulderAttempt where
  id := "a"
  order := 1
  result := r

/-- A finished volume session with 20 boulders: 5 flash, 5 done, 5 fail and
5 unlogged attempts (the spec's fail-rate example). -/
def exVolume20 : VolumeSession where
  id := "v-20"
  date := 0
  startTime := 0
  endTime := some 3600000
  isFinished := true
  targetLevel := 5
  boulderCount := 20
  attempts :=
    List.replicate 5 (exAttempt (some .flash))
    ++ List.replicate 5 (exAttempt (some .done))
    ++ List.replicate 5 (exAttempt (some .fail))
    ++ List.replicate 5 (exAttempt none)

/-- A finished volume session at target level 10 with fail rate 80
(16 of 20 attempts failed), created at instant 0. -/
def exVolumeHighFail : VolumeSession where
  id := "v-hf"
  date := 0
  startTime := 0
  endTime := some 3600000
  isFinished := true
  targetLevel := 10
  boulderCount := 20
  attempts :=
    List.replicate 16 (exAttempt (some .fail))
    ++ List.replicate 4 (exAttempt (some .done))

/-- A finished volume session at target level 1 with fail rate 90
(18 of 20 attempts failed), created at instant 0. -/
def exVolumeLevel1 : VolumeSession where
  id := "v-l1"
  date := 0
  startTime := 0
  endTime := some 3600000
  isFinished := true
  targetLevel := 1
  boulderCount := 20
  attempts :=
    List.replicate 18 (exAttempt (some .fail))
    ++ List.replicate 2 (exAttempt (some .done))

/-- A tiny finished volume session with id `a` and no attempts. -/
def sessA : Session :=
  .volume { id := "a", date := 0, startTime := 0, endTime := some 1
            isFinished := true, targetLevel := 1, boulderCount := 0
            attempts := [] }

/-- A tiny finished volume session with id `b` and no attempts. -/
def sessB : Session :=
  .volume { id := "b", date := 10, startTime := 10, endTime := some 11
            isFinished := true, targetLevel := 2, boulderCount := 0
            attempts := [] }

/-- A tiny finished volume session with id `c` and no attempts. -/
def sessC : Session :=
  .volume { id := "c", date := 20, startTime := 20, endTime := some 21
            isFinished := true, targetLevel := 3, boulderCount := 0
            attempts := [] }

/-- An active training session with one completed set per exercise. -/
def exTrainingComplete : TrainingSession where
  id := "t-done"
  date := 0
  startTime := 0
  isFinished := false
  trainingData :=
    { hangWeight := 5
      pullupWeight := 0
      benchWeight := some 10
      trapBarWeight := some 20
      hangSets := [{ id := "h1", order := 1, exercise := .hang
                     completed := true, timestamp := some 60000 }]
      pullupSets := [{ id := "p1", order := 1, exercise := .pullup
                       completed := true, timestamp := some 120000 }]
      benchSets := some [{ id := "b1", order := 1, exercise := .bench
                           completed := true, timestamp := some 180000 }]
      trapBarSets := some [{ id := "tb1", order := 1, exercise := .trapbar
                             completed := true, timestamp := some 240000 }] }

/-- A session distinct from `sessA` but sharing its id `a`. -/
def sessADup : Session :=
  .volume { id := "a", date := 99, startTime := 99, endTime := some 100
            isFinished := true, targetLevel := 7, boulderCount := 0
            attempts := [] }

/-! ## C4 — fail rate -/

/-- Claim C4: for every volume session the fail rate is
`failCount / boulderCount * 100`, where `failCount` counts attempts whose
result is `fail` or absent, and is 0 when `boulderCount = 0`; in particular
the 20-boulder session with 5 flash, 5 done, 5 fail and 5 unlogged attempts
has fail rate 50. -/
theorem c4_fail_rate :
    (∀ s : VolumeSession,
      getFailRate s =
        if s.boulderCount = 0 then 0
        else ((s.attempts.countP
              (fun a => decide (a.result = some .fail ∨ a.result = none)) : ℚ)
            / (s.boulderCount : ℚ)) * 100)
    ∧ getFailRate exVolume20 = 50 := by
  constructor
  · intro s
    unfold getFailRate
    split
    · rfl
    · have hpred : ∀ a : BoulderAttempt,
          (a.result == some AttemptResult.fail || a.result == none) =
            decide (a.result = some .fail ∨ a.result = none) := by
        intro a
        rcases a.result with _ | r
        · decide
        · cases r <;> decide
      rw [List.countP_eq_length_filter]
      rw [List.filter_congr (fun a _ => hpred a)]
  · have hlen : (exVolume20.attempts.filter
        (fun a => a.result == some AttemptResult.fail || a.result == none)).length
          = 10 := by decide
    have hbc : exVolume20.boulderCount = 20 := rfl
    simp only [getFailRate, hlen, hbc]
    norm_num

/-! ## C10 — saveSession appends unconditionally -/

/-- Claim C10: `saveSession` appends the new session to the stored
collection unconditionally, with no id-uniqueness check: saving a session
whose id equals an already-stored session's id leaves the store with two
sessions of the same id. -/
theorem c10_save_session_appends :
    (∀ (session : Session) (sessions : List Session),
      saveSession session sessions = sessions ++ [session])
    ∧ (saveSession sessADup [sessA, sessB]).countP (fun s => s.sid == "a") = 2
    ∧ sessADup ≠ sessA := by
  refine ⟨fun _ _ => rfl, by decide, by decide⟩

/-! ## C9 — deleteSession -/

/-- Claim C9: `deleteSession id` fails with `notFound` when no stored session
has that id, and when exactly one stored session has that id it removes
exactly that session, leaving every other stored session unchanged and in
place. -/
theorem c9_delete_session (id : String) (sessions pre post : List Session)
    (victim : Session) :
    ((∀ s ∈ sessions, s.sid ≠ id) →
      deleteSession id sessions = .error .notFound)
    ∧ (victim.sid = id → (∀ s ∈ pre, s.sid ≠ id) → (∀ s ∈ post, s.sid ≠ id) →
        deleteSession id (pre ++ victim :: post) = .ok (pre ++ post)) := by
  constructor
  · intro h
    have hfil : sessions.filter (fun s => s.sid != id) = sessions :=
      List.filter_eq_self.mpr (by intro a ha; simpa using h a ha)
    simp [deleteSession, hfil]
  · intro hv hpre hpost
    have hfpre : pre.filter (fun s => s.sid != id) = pre :=
      List.filter_eq_self.mpr (by intro a ha; simpa using hpre a ha)
    have hfpost : post.filter (fun s => s.sid != id) = post :=
      List.filter_eq_self.mpr (by intro a ha; simpa using hpost a ha)
    have hvfil : (victim.sid != id) = false := by simp [hv]
    have hfil : (pre ++ victim :: post).filter (fun s => s.sid != id) =
        pre ++ post := by
      simp [List.filter_append, hfpre, hfpost, List.filter_cons, hvfil]
    have hlen : (pre ++ post).length ≠ (pre ++ victim :: post).length := by
      simp
    simp only [deleteSession, hfil]
    rw [if_neg hlen]

/-- Witness for C9: concrete runs of both branches of `c9_delete_session`. -/
theorem c9_delete_session_witness :
    deleteSession "zzz" [sessA, sessB] = .error .notFound
    ∧ deleteSession "b" ([sessA] ++ sessB :: [sessC]) = .ok ([sessA] ++ [sessC]) :=
  ⟨(c9_delete_session "zzz" [sessA, sessB] [] [] sessA).1 (by decide),
   (c9_delete_session "b" [] [sessA] [sessC] sessB).2 (by decide)
     (by decide) (by decide)⟩

/-! ## C5 — v1→v2 migration -/

/-- Claim C5: `migrateV1toV2` stamps version 2 and assigns `volume` to every
session lacking a `sessionType` discriminator while leaving the rest of each
session untouched; the migration guard in `getAllSessions` is decided solely
by the stored `version` field, so a payload already at version 2 is returned
identically whatever its sessions look like, and migration is idempotent. -/
theorem c5_migration :
    (∀ (α : Type) (data : RawSchema α),
      (migrateV1toV2 data).version = some 2
      ∧ (migrateV1toV2 data).sessions.map (fun s => s.sessionType) =
          data.sessions.map (fun s => some (s.sessionType.getD .volume))
      ∧ (migrateV1toV2 data).sessions.map (fun s => s.rest) =
          data.sessions.map (fun s => s.rest))
    ∧ (∀ (α : Type) (sessions : List (RawSession α)),
      applyMigrations { version := some 2, sessions := sessions } =
        { version := some 2, sessions := sessions })
    ∧ (∀ (α : Type) (data : RawSchema α),
      applyMigrations (applyMigrations data) = applyMigrations data) := by
  refine ⟨fun α data => ⟨rfl, ?_, ?_⟩, fun α sessions => ?_, fun α data => ?_⟩
  · simp [migrateV1toV2]
  · simp [migrateV1toV2]
  · simp [applyMigrations, needsMigration, CURRENT_VERSION]
  · unfold applyMigrations
    by_cases h : needsMigration data.version = true
    · rw [if_pos h]
      have h2 : needsMigration (migrateV1toV2 data).version = false := by
        simp [migrateV1toV2, needsMigration, CURRENT_VERSION]
      rw [if_neg (by simp [h2])]
    · rw [if_neg h, if_neg h]

/-! ## C2 — volume recommender -/

/-- Claim C2: with no prior session the volume recommender returns level 5
and boulderCount 20; otherwise it starts from the prior target level, adds 1
for `failRate < 25`, subtracts 1 for `failRate > 75`, leaves it unchanged in
the 25–75 band, subtracts 2 for `daysSince > 14` and 1 for
`8 ≤ daysSince ≤ 14`, clamps to a minimum of 1 with no upper clamp, and
carries `boulderCount` over; in particular target 10 / fail rate 80 /
20 days gives level 7 and target 1 / fail rate 90 / 30 days gives level 1. -/
theorem c2_volume_recommender :
    (∀ now : Instant,
      (getRecommendation none now).level = 5
      ∧ (getRecommendation none now).boulderCount = 20)
    ∧ (∀ (last : VolumeSession) (now : Instant),
      (getRecommendation (some last) now).level =
        max 1 (last.targetLevel
          + (if getFailRate last < 25 then 1
             else if getFailRate last > 75 then -1 else 0)
          + (if (now - last.date).fdiv msPerDay > 14 then -2
             else if (now - last.date).fdiv msPerDay ≥ 8 then -1 else 0))
      ∧ (getRecommendation (some last) now).boulderCount = last.boulderCount)
    ∧ (getRecommendation (some exVolumeHighFail) (20 * msPerDay)).level = 7
    ∧ (getRecommendation (some exVolumeLevel1) (30 * msPerDay)).level = 1 := by
  refine ⟨fun _ => ⟨rfl, rfl⟩, fun last now => ⟨?_, rfl⟩, ?_, ?_⟩
  · simp only [getRecommendation]
    split_ifs <;> omega
  · have hfr : getFailRate exVolumeHighFail = 80 := by
      have hlen : (exVolumeHighFail.attempts.filter
          (fun a => a.result == some AttemptResult.fail || a.result == none)).length
            = 16 := by decide
      have hbc : exVolumeHighFail.boulderCount = 20 := rfl
      simp only [getFailRate, hlen, hbc]
      norm_num
    have hdays : ((20 * msPerDay : Int) - exVolumeHighFail.date).fdiv msPerDay
        = 20 := by decide
    have hlvl : exVolumeHighFail.targetLevel = 10 := rfl
    simp only [getRecommendation, hfr, hdays, hlvl]
    norm_num
  · have hfr : getFailRate exVolumeLevel1 = 90 := by
      have hlen : (exVolumeLevel1.attempts.filter
          (fun a => a.result == some AttemptResult.fail || a.result == none)).length
            = 18 := by decide
      have hbc : exVolumeLevel1.boulderCount = 20 := rfl
      simp only [getFailRate, hlen, hbc]
      norm_num
    have hdays : ((30 * msPerDay : Int) - exVolumeLevel1.date).fdiv msPerDay
        = 30 := by decide
    have hlvl : exVolumeLevel1.targetLevel = 1 := rfl
    simp only [getRecommendation, hfr, hdays, hlvl]
    norm_num

/-! ## C3 — training recommender -/

/-- Fact: `isExerciseComplete` is true exactly on a present, non-empty, fully
completed set sequence, an absent sequence counting as empty. -/
theorem isExerciseComplete_iff (o : Option (List TrainingSet)) :
    isExerciseComplete o = true ↔
      (o.getD [] ≠ [] ∧ ∀ t ∈ o.getD [], t.completed = true) := by
  cases o with
  | none => simp [isExerciseComplete]
  | some l =>
    simp [isExerciseComplete, List.all_eq_true, List.length_pos]

/-- Transport of a weight-progression `if` from the code's boolean test to
the specification's proposition. -/
theorem progress_if_congr (c : Bool) (w w' : ℚ) (P : Prop) [Decidable P]
    (h : c = true ↔ P) : (if c then w' else w) = if P then w' else w := by
  by_cases hp : P
  · rw [if_pos (h.mpr hp), if_pos hp]
  · rw [if_neg (fun hc => hp (h.mp hc)), if_neg hp]

/-- Claim C3: with no prior finished training session the recommender
returns hang 0, pullup 0, bench 10, trapBar 20; otherwise, independently per
exercise, the new weight is the old weight + 2.5 kg exactly when the set
sequence is non-empty with every set completed (an absent or empty
bench/trap-bar sequence never progresses), the absent bench/trap-bar weight
defaulting to 10/20 first. -/
theorem c3_training_recommender :
    ((getTrainingRecommendation none).hangWeight = 0
      ∧ (getTrainingRecommendation none).pullupWeight = 0
      ∧ (getTrainingRecommendation none).benchWeight = 10
      ∧ (getTrainingRecommendation none).trapBarWeight = 20)
    ∧ (∀ last : TrainingSession,
      (getTrainingRecommendation (some last)).hangWeight =
        (if last.trainingData.hangSets ≠ []
            ∧ ∀ t ∈ last.trainingData.hangSets, t.completed = true
         then last.trainingData.hangWeight + 5 / 2
         else last.trainingData.hangWeight)
      ∧ (getTrainingRecommendation (some last)).pullupWeight =
        (if last.trainingData.pullupSets ≠ []
            ∧ ∀ t ∈ last.trainingData.pullupSets, t.completed = true
         then last.trainingData.pullupWeight + 5 / 2
         else last.trainingData.pullupWeight)
      ∧ (getTrainingRecommendation (some last)).benchWeight =
        (if last.trainingData.benchSets.getD [] ≠ []
            ∧ ∀ t ∈ last.trainingData.benchSets.getD [], t.completed = true
         then last.trainingData.benchWeight.getD 10 + 5 / 2
         else last.trainingData.benchWeight.getD 10)
      ∧ (getTrainingRecommendation (some last)).trapBarWeight =
        (if last.trainingData.trapBarSets.getD [] ≠ []
            ∧ ∀ t ∈ last.trainingData.trapBarSets.getD [], t.completed = true
         then last.trainingData.trapBarWeight.getD 20 + 5 / 2
         else last.trainingData.trapBarWeight.getD 20)) := by
  refine ⟨⟨rfl, rfl, rfl, rfl⟩, fun last => ⟨?_, ?_, ?_, ?_⟩⟩
  · simp only [getTrainingRecommendation]
    exact progress_if_congr _ _ _ _
      (by simpa using isExerciseComplete_iff (some last.trainingData.hangSets))
  · simp only [getTrainingRecommendation]
    exact progress_if_congr _ _ _ _
      (by simpa using isExerciseComplete_iff (some last.trainingData.pullupSets))
  · simp only [getTrainingRecommendation]
    exact progress_if_congr _ _ _ _
      (isExerciseComplete_iff last.trainingData.benchSets)
  · simp only [getTrainingRecommendation]
    exact progress_if_congr _ _ _ _
      (isExerciseComplete_iff last.trainingData.trapBarSets)

/-- Witness for C3: the per-exercise progression rule instantiated at the
concrete fully completed training session. -/
theorem c3_training_recommender_witness :
    (getTrainingRecommendation (some exTrainingComplete)).hangWeight =
      (if exTrainingComplete.trainingData.hangSets ≠ []
          ∧ ∀ t ∈ exTrainingComplete.trainingData.hangSets, t.completed = true
       then exTrainingComplete.trainingData.hangWeight + 5 / 2
       else exTrainingComplete.trainingData.hangWeight) :=
  (c3_training_recommender.2 exTrainingComplete).1

/-! ## C6 — isFinished ⇔ endTime, over the lifecycle -/

/-- Claim C6: along every lifecycle history — creation starts with
`isFinished = false` and no `endTime`, finishing sets both together, and
attempt logging and set toggling touch neither — every reachable session
satisfies `isFinished = true` exactly when `endTime` is set. -/
theorem c6_finished_iff_endTime :
    (∀ sid idGen now level n,
      (mkVolumeSession sid idGen now level n).isFinished = false
      ∧ (mkVolumeSession sid idGen now level n).endTime = none)
    ∧ (∀ sid idGen now hw pw bw tw,
      (mkTrainingSession sid idGen now hw pw bw tw).isFinished = false
      ∧ (mkTrainingSession sid idGen now hw pw bw tw).endTime = none)
    ∧ (∀ s now, (finishVolume s now).isFinished = true
        ∧ (finishVolume s now).endTime = some now)
    ∧ (∀ s now, (finishTraining s now).isFinished = true
        ∧ (finishTraining s now).endTime = some now)
    ∧ (∀ s aid r c now, (logAttempt s aid r c now).isFinished = s.isFinished
        ∧ (logAttempt s aid r c now).endTime = s.endTime)
    ∧ (∀ s setId, (uncompleteHangSet s setId).isFinished = s.isFinished
        ∧ (uncompleteHangSet s setId).endTime = s.endTime)
    ∧ (∀ s setId now, (completeHangSet s setId now).isFinished = s.isFinished
        ∧ (completeHangSet s setId now).endTime = s.endTime)
    ∧ (∀ s setId now, (togglePullupSet s setId now).isFinished = s.isFinished
        ∧ (togglePullupSet s setId now).endTime = s.endTime)
    ∧ (∀ s setId now, (toggleBenchSet s setId now).isFinished = s.isFinished
        ∧ (toggleBenchSet s setId now).endTime = s.endTime)
    ∧ (∀ s setId now, (toggleTrapBarSet s setId now).isFinished = s.isFinished
        ∧ (toggleTrapBarSet s setId now).endTime = s.endTime)
    ∧ (∀ s : Session, Reachable s →
        (s.finished = true ↔ s.endT.isSome = true)) := by
  refine ⟨fun _ _ _ _ _ => ⟨rfl, rfl⟩, fun _ _ _ _ _ _ _ => ⟨rfl, rfl⟩,
    fun _ _ => ⟨rfl, rfl⟩, fun _ _ => ⟨rfl, rfl⟩, fun _ _ _ _ _ => ⟨rfl, rfl⟩,
    fun _ _ => ⟨rfl, rfl⟩, fun _ _ _ => ⟨rfl, rfl⟩, fun _ _ _ => ⟨rfl, rfl⟩,
    fun _ _ _ => ⟨rfl, rfl⟩, fun _ _ _ => ⟨rfl, rfl⟩, fun s h => ?_⟩
  induction h with
  | startVolume sid idGen now level n =>
    simp [Session.finished, Session.endT, mkVolumeSession]
  | startTraining sid idGen now hw pw bw tw =>
    simp [Session.finished, Session.endT, mkTrainingSession]
  | logAttempt s aid r c now _ ih =>
    simpa [Session.finished, Session.endT, logAttempt] using ih
  | uncompleteHang s setId _ ih =>
    simpa [Session.finished, Session.endT, uncompleteHangSet] using ih
  | completeHang s setId now _ ih =>
    simpa [Session.finished, Session.endT, completeHangSet] using ih
  | togglePullup s setId now _ ih =>
    simpa [Session.finished, Session.endT, togglePullupSet] using ih
  | toggleBench s setId now _ ih =>
    simpa [Session.finished, Session.endT, toggleBenchSet] using ih
  | toggleTrapBar s setId now _ ih =>
    simpa [Session.finished, Session.endT, toggleTrapBarSet] using ih
  | finishVol s now _ _ =>
    simp [Session.finished, Session.endT, finishVolume]
  | finishTrain s now _ _ =>
    simp [Session.finished, Session.endT, finishTraining]

/-- Witness for C6: the invariant holds at a concrete freshly created
session and at a concrete finished session. -/
theorem c6_finished_iff_endTime_witness :
    ((Session.volume (mkVolumeSession "s1" (fun _ => "a") 0 5 3)).finished = true
      ↔ (Session.volume (mkVolumeSession "s1" (fun _ => "a") 0 5 3)).endT.isSome
          = true)
    ∧ ((Session.volume (finishVolume (mkVolumeSession "s1" (fun _ => "a") 0 5 3)
          9000)).finished = true
      ↔ (Session.volume (finishVolume (mkVolumeSession "s1" (fun _ => "a") 0 5 3)
          9000)).endT.isSome = true) :=
  ⟨(c6_finished_iff_endTime.2.2.2.2.2.2.2.2.2.2) _
      (Reachable.startVolume "s1" (fun _ => "a") 0 5 3),
   (c6_finished_iff_endTime.2.2.2.2.2.2.2.2.2.2) _
      (Reachable.finishVol _ 9000 (Reachable.startVolume "s1" (fun _ => "a") 0 5 3))⟩

/-! ## C7 — shape of freshly created sessions -/

/-- Claim C7: for every `boulderCount ≥ 0` a newly started volume session
has exactly `boulderCount` attempts whose `order` values are exactly
`1..boulderCount` (hence distinct) with every result absent; a newly started
training session has exactly 5 sets per exercise with orders `1..5` and
`completed = false` on every set. -/
theorem c7_new_session_shape :
    (∀ sid idGen now level n,
      (mkVolumeSession sid idGen now level n).attempts.length = n
      ∧ (mkVolumeSession sid idGen now level n).attempts.map (·.order) =
          List.range' 1 n
      ∧ ((mkVolumeSession sid idGen now level n).attempts.map (·.order)).Nodup
      ∧ ∀ a ∈ (mkVolumeSession sid idGen now level n).attempts,
          a.result = none)
    ∧ (∀ sid idGen now hw pw bw tw,
      (mkTrainingSession sid idGen now hw pw bw tw).trainingData.hangSets.length
          = 5
      ∧ (mkTrainingSession sid idGen now hw pw bw
          tw).trainingData.hangSets.map (·.order) = List.range' 1 5
      ∧ (∀ t ∈ (mkTrainingSession sid idGen now hw pw bw
          tw).trainingData.hangSets, t.completed = false)
      ∧ (mkTrainingSession sid idGen now hw pw bw
          tw).trainingData.pullupSets.length = 5
      ∧ (mkTrainingSession sid idGen now hw pw bw
          tw).trainingData.pullupSets.map (·.order) = List.range' 1 5
      ∧ (∀ t ∈ (mkTrainingSession sid idGen now hw pw bw
          tw).trainingData.pullupSets, t.completed = false)
      ∧ ((mkTrainingSession sid idGen now hw pw bw
          tw).trainingData.benchSets.getD []).length = 5
      ∧ ((mkTrainingSession sid idGen now hw pw bw
          tw).trainingData.benchSets.getD []).map (·.order) = List.range' 1 5
      ∧ (∀ t ∈ (mkTrainingSession sid idGen now hw pw bw
          tw).trainingData.benchSets.getD [], t.completed = false)
      ∧ ((mkTrainingSession sid idGen now hw pw bw
          tw).trainingData.trapBarSets.getD []).length = 5
      ∧ ((mkTrainingSession sid idGen now hw pw bw
          tw).trainingData.trapBarSets.getD []).map (·.order) = List.range' 1 5
      ∧ (∀ t ∈ (mkTrainingSession sid idGen now hw pw bw
          tw).trainingData.trapBarSets.getD [], t.completed = false)) := by
  have hrange : ∀ (n : Nat) (f : Nat → String),
      ((List.range n).map (fun i =>
        ({ id := f i, order := i + 1 } : BoulderAttempt))).map (·.order) =
        List.range' 1 n := by
    intro n f
    rw [List.map_map, List.range'_eq_map_range]
    exact List.map_congr_left (fun i _ => by simp [Nat.add_comm])
  constructor
  · intro sid idGen now level n
    refine ⟨by simp [mkVolumeSession], hrange n idGen, ?_, ?_⟩
    · rw [show (mkVolumeSession sid idGen now level n).attempts.map (·.order) =
          List.range' 1 n from hrange n idGen]
      exact List.nodup_range' 1 n
    · intro a ha
      simp only [mkVolumeSession, List.mem_map, List.mem_range] at ha
      obtain ⟨i, _, rfl⟩ := ha
      rfl
  · intro sid idGen now hw pw bw tw
    have hset : ∀ (e : Exercise) (f : Exercise → Nat → String),
        ((List.range 5).map (fun i =>
          ({ id := f e i, order := i + 1, exercise := e, completed := false }
            : TrainingSet))).map (·.order) = List.range' 1 5 := by
      intro e f
      rw [List.map_map, List.range'_eq_map_range]
      exact List.map_congr_left (fun i _ => by simp [Nat.add_comm])
    have hfalse : ∀ (e : Exercise) (f : Exercise → Nat → String),
        ∀ t ∈ (List.range 5).map (fun i =>
          ({ id := f e i, order := i + 1, exercise := e, completed := false }
            : TrainingSet)), t.completed = false := by
      intro e f t ht
      simp only [List.mem_map, List.mem_range] at ht
      obtain ⟨i, _, rfl⟩ := ht
      rfl
    exact ⟨by simp [mkTrainingSession, TRAINING_PROTOCOL],
      hset .hang idGen, hfalse .hang idGen,
      by simp [mkTrainingSession, TRAINING_PROTOCOL],
      hset .pullup idGen, hfalse .pullup idGen,
      by simp [mkTrainingSession, TRAINING_PROTOCOL],
      hset .bench idGen, hfalse .bench idGen,
      by simp [mkTrainingSession, TRAINING_PROTOCOL],
      hset .trapbar idGen, hfalse .trapbar idGen⟩

/-- Witness for C7: a concrete 3-boulder volume session has attempt orders
exactly 1, 2, 3, and a concrete fresh training session has hang orders
exactly 1..5. -/
theorem c7_new_session_shape_witness :
    (mkVolumeSession "s1" (fun i => toString i) 0 5 3).attempts.map (·.order)
        = List.range' 1 3
    ∧ (mkVolumeSession "s1" (fun i => toString i) 0 5 3).attempts.length = 3
    ∧ (mkTrainingSession "s2" (fun _ i => toString i) 0 0 0 10
        20).trainingData.hangSets.map (·.order) = List.range' 1 5 :=
  ⟨(c7_new_session_shape.1 "s1" (fun i => toString i) 0 5 3).2.1,
   (c7_new_session_shape.1 "s1" (fun i => toString i) 0 5 3).1,
   (c7_new_session_shape.2 "s2" (fun _ i => toString i) 0 0 0 10 20).2.1⟩

/-! ## C8 — completion gate before finishing -/

/-- Claim C8: the finish handler defers to caller confirmation exactly when,
for a volume session, strictly more than 5 attempts are unlogged, and, for a
training session, strictly fewer sets are completed than exist; otherwise it
runs the unconditional finish immediately. -/
theorem c8_completion_gate :
    (∀ (s : VolumeSession) (now : Instant),
      (handleFinishVolume s now = .confirm ↔
        5 < s.attempts.countP (fun a => a.result == none))
      ∧ (¬ 5 < s.attempts.countP (fun a => a.result == none) →
          handleFinishVolume s now = .finished (finishVolume s now)))
    ∧ (∀ (s : TrainingSession) (now : Instant),
      (handleFinishTraining s now = .confirm ↔
        ((s.trainingData.hangSets ++ s.trainingData.pullupSets
            ++ s.trainingData.benchSets.getD []
            ++ s.trainingData.trapBarSets.getD []).countP (·.completed)
          < (s.trainingData.hangSets ++ s.trainingData.pullupSets
            ++ s.trainingData.benchSets.getD []
            ++ s.trainingData.trapBarSets.getD []).length))
      ∧ (¬ ((s.trainingData.hangSets ++ s.trainingData.pullupSets
            ++ s.trainingData.benchSets.getD []
            ++ s.trainingData.trapBarSets.getD []).countP (·.completed)
          < (s.trainingData.hangSets ++ s.trainingData.pullupSets
            ++ s.trainingData.benchSets.getD []
            ++ s.trainingData.trapBarSets.getD []).length) →
          handleFinishTraining s now = .finished (finishTraining s now))) := by
  have hvol : ∀ (s : VolumeSession),
      (getAttemptCounts s).unlogged =
        s.attempts.countP (fun a => a.result == none) := by
    intro s
    simp [getAttemptCounts, List.countP_eq_length_filter]
  have htrain : ∀ (s : TrainingSession),
      (totalCompleted s =
        (s.trainingData.hangSets ++ s.trainingData.pullupSets
          ++ s.trainingData.benchSets.getD []
          ++ s.trainingData.trapBarSets.getD []).countP (·.completed))
      ∧ (totalSets s =
        (s.trainingData.hangSets ++ s.trainingData.pullupSets
          ++ s.trainingData.benchSets.getD []
          ++ s.trainingData.trapBarSets.getD []).length) := by
    intro s
    constructor
    · simp only [totalCompleted, List.countP_eq_length_filter,
        List.filter_append, List.length_append]
    · simp only [totalSets, List.length_append]
  constructor
  · intro s now
    constructor
    · rw [show handleFinishVolume s now =
          (if (getAttemptCounts s).unlogged > 5 then .confirm
           else .finished (finishVolume s now)) from rfl, hvol s]
      constructor
      · intro h
        by_contra hc
        rw [if_neg hc] at h
        exact FinishOutcome.noConfusion h
      · intro h
        rw [if_pos h]
    · intro h
      rw [show handleFinishVolume s now =
          (if (getAttemptCounts s).unlogged > 5 then .confirm
           else .finished (finishVolume s now)) from rfl, hvol s, if_neg h]
  · intro s now
    constructor
    · rw [show handleFinishTraining s now =
          (if totalCompleted s < totalSets s then .confirm
           else .finished (finishTraining s now)) from rfl,
        (htrain s).1, (htrain s).2]
      constructor
      · intro h
        by_contra hc
        rw [if_neg hc] at h
        exact FinishOutcome.noConfusion h
      · intro h
        rw [if_pos h]
    · intro h
      rw [show handleFinishTraining s now =
          (if totalCompleted s < totalSets s then .confirm
           else .finished (finishTraining s now)) from rfl,
        (htrain s).1, (htrain s).2, if_neg h]

/-- Witness for C8: on the 20-boulder example with only 5 unlogged attempts
the volume gate does not fire, and on a fully completed one-set training
session the training gate does not fire. -/
theorem c8_completion_gate_witness :
    handleFinishVolume exVolume20 9000 =
      .finished (finishVolume exVolume20 9000)
    ∧ handleFinishTraining exTrainingComplete 9000 =
      .finished (finishTraining exTrainingComplete 9000) :=
  ⟨(c8_completion_gate.1 exVolume20 9000).2 (by decide),
   (c8_completion_gate.2 exTrainingComplete 9000).2 (by decide)⟩

/-! ## C1 — serialization round trip -/

/-- A finished training session with one completed, timestamped set per
exercise: the round-trip failing input. -/
def exTrainingFinished : TrainingSession where
  id := "t1"
  date := 0
  startTime := 0
  endTime := some 7200000
  isFinished := true
  trainingData :=
    { hangWeight := 5
      pullupWeight := 0
      benchWeight := some 10
      trapBarWeight := some 20
      hangSets := [{ id := "h1", order := 1, exercise := .hang
                     completed := true, timestamp := some 60000 }]
      pullupSets := [{ id := "p1", order := 1, exercise := .pullup
                       completed := true, timestamp := some 120000 }]
      benchSets := some [{ id := "b1", order := 1, exercise := .bench
                           completed := true, timestamp := some 3600000 }]
      trapBarSets := some [{ id := "tb1", order := 1, exercise := .trapbar
                             completed := true, timestamp := some 5400000 }] }

/-- The bench-set timestamps of a runtime session (empty for a volume
session). -/
def rtBenchTimestamps (s : RtSession) : List (Option JsTime) :=
  match s with
  | .training t => (t.trainingData.benchSets.getD []).map (·.timestamp)
  | .volume _ => []

/-- The hang-set timestamps of a runtime session (empty for a volume
session). -/
def rtHangTimestamps (s : RtSession) : List (Option JsTime) :=
  match s with
  | .training t => t.trainingData.hangSets.map (·.timestamp)
  | .volume _ => []

/-- Claim C1 fails on the code: on a training session with a timestamped
bench set, serializing and deserializing does not give the session back —
`deserializeSession` rebuilds the `date`, `startTime`, `endTime` and
hang/pullup-set instants from their ISO-8601 wire strings, but copies the
bench (and trap-bar) sets through untouched, leaving their timestamps as
strings instead of instants. -/
theorem c1_roundtrip_fails_on_bench_sets :
    roundTrip (.training exTrainingFinished)
      ≠ sessionToRt (.training exTrainingFinished)
    ∧ rtBenchTimestamps (roundTrip (.training exTrainingFinished)) =
        [some (.str "1970-01-01T01:00:00.000Z")]
    ∧ rtBenchTimestamps (sessionToRt (.training exTrainingFinished)) =
        [some (.date 3600000)]
    ∧ rtHangTimestamps (roundTrip (.training exTrainingFinished)) =
        [some (.date 60000)] := by
  refine ⟨by decide, by decide, by decide, by decide⟩

end BoulderBody
